import Mathlib

/-!
Verification of the OXRS_Black ESP32 board-support facade
(`src/OXRS_Black.cpp`, `src/OXRS_Black.h`).

The development shallowly embeds the JSON values manipulated by the facade
(ArduinoJson documents), the schema-composition helpers, the MQTT dispatch
callbacks, the publish paths, the loop pump and the network-identity
derivation, and proves the testable properties of the specification
against them.
-/

/-- JSON values as stored in an ArduinoJson `JsonDocument`.  Objects are
ordered association lists, as in ArduinoJson (insertion order is kept,
keys are unique in any document built through the library).  Floats are
not needed by any facade code path and are omitted. -/
inductive Json where
  | null : Json
  | bool (b : Bool) : Json
  | int (n : Int) : Json
  | str (s : String) : Json
  | arr (elems : List Json) : Json
  | obj (fields : List (String × Json)) : Json

namespace Json

/-- ArduinoJson `document.isNull()`: true for an unbound / cleared
variant. -/
def isNull : Json → Bool
  | .null => true
  | _ => false

/-- ArduinoJson `variant.as<bool>()` / truth test of a variant
(`VariantData::asBoolean`): `null`, `false` and `0` are falsy, every
other value (including strings, arrays and objects) is truthy. -/
def truthy : Json → Bool
  | .null => false
  | .bool b => b
  | .int n => n != 0
  | .str _ => true
  | .arr _ => true
  | .obj _ => true

/-- ArduinoJson `variant.containsKey(k)`: true iff the variant is an
object with a member named `k`. -/
def containsKey (j : Json) (k : String) : Bool :=
  match j with
  | .obj fields => fields.any (fun p => p.1 == k)
  | _ => false

/-- ArduinoJson `variant[k]` read access: the member named `k` of an
object, `null` (an unbound variant) otherwise. -/
def getMember (j : Json) (k : String) : Json :=
  match j with
  | .obj fields =>
    match fields.find? (fun p => p.1 == k) with
    | some p => p.2
    | none => .null
  | _ => .null

/-- Replace the value of key `k` in an association list, keeping its
position, or append `(k, v)` when absent — ArduinoJson member
assignment on an object. -/
def setField : List (String × Json) → String → Json → List (String × Json)
  | [], k, v => [(k, v)]
  | (k', v') :: rest, k, v =>
    if k' == k then (k, v) :: rest else (k', v') :: setField rest k v

/-- ArduinoJson `variant[k] = v` write access: on an object, replace or
append the member; on a `null` (unbound) variant, first convert it to an
object; on any other value the write fails silently
(`getOrCreateMember` returns null for non-object, non-null variants). -/
def setMember (j : Json) (k : String) (v : Json) : Json :=
  match j with
  | .obj fields => .obj (setField fields k v)
  | .null => .obj [(k, v)]
  | other => other

/-- True iff the value is a JSON object. -/
def isObj : Json → Bool
  | .obj _ => true
  | _ => false

/-- Well-formedness of a document's top level: the keys of a top-level
object are pairwise distinct (always true of a document built through
ArduinoJson, which never stores duplicate members). -/
def topKeysNodup : Json → Prop
  | .obj fields => (fields.map Prod.fst).Nodup
  | _ => True

instance : DecidablePred topKeysNodup := by
  intro j
  unfold topKeysNodup
  cases j <;> infer_instance

end Json

mutual

/-- `_mergeJson(dst, src)` from `src/OXRS_Black.cpp` lines 47-67: when
`src` is an object, walk its pairs, recursing when `dst[key]` tests
truthy and assigning `dst[key] = value` otherwise; when `src` is not an
object, `dst.set(src)` replaces `dst` wholesale. -/
def _mergeJson (dst src : Json) : Json :=
  match src with
  | .obj fields => _mergeJsonPairs dst fields
  | _ => src

/-- The `for (JsonPairConst kvp : src.as<JsonObjectConst>())` loop body
of `_mergeJson`, one source pair at a time, threading the mutated
destination. -/
def _mergeJsonPairs (dst : Json) : List (String × Json) → Json
  | [] => dst
  | (k, v) :: rest =>
    if (dst.getMember k).truthy then
      _mergeJsonPairs (dst.setMember k (_mergeJson (dst.getMember k) v)) rest
    else
      _mergeJsonPairs (dst.setMember k v) rest

end

/-- The `activeBrightnessPercent` platform property built by
`_getConfigSchemaJson` (lines 133-138). -/
def activeBrightnessPercentSchema : Json := .obj
  [ ("title", .str "LCD Active Brightness (%)")
  , ("description", .str "Brightness of the LCD when active (defaults to 100%). Must be a number between 0 and 100.")
  , ("type", .str "integer")
  , ("minimum", .int 0)
  , ("maximum", .int 100) ]

/-- The `inactiveBrightnessPercent` platform property built by
`_getConfigSchemaJson` (lines 140-145). -/
def inactiveBrightnessPercentSchema : Json := .obj
  [ ("title", .str "LCD Inactive Brightness (%)")
  , ("description", .str "Brightness of the LCD when in-active (defaults to 10%). Must be a number between 0 and 100.")
  , ("type", .str "integer")
  , ("minimum", .int 0)
  , ("maximum", .int 100) ]

/-- The `activeDisplaySeconds` platform property built by
`_getConfigSchemaJson` (lines 147-152). -/
def activeDisplaySecondsSchema : Json := .obj
  [ ("title", .str "LCD Active Display Timeout (seconds)")
  , ("description", .str "How long the LCD remains 'active' after an event is detected (defaults to 10 seconds, setting to 0 disables the timeout). Must be a number between 0 and 600 (i.e. 10 minutes).")
  , ("type", .str "integer")
  , ("minimum", .int 0)
  , ("maximum", .int 600) ]

/-- The `eventDisplaySeconds` platform property built by
`_getConfigSchemaJson` (lines 154-159). -/
def eventDisplaySecondsSchema : Json := .obj
  [ ("title", .str "LCD Event Display Timeout (seconds)")
  , ("description", .str "How long the last event is displayed on the LCD (defaults to 3 seconds, setting to 0 disables the timeout). Must be a number between 0 and 600 (i.e. 10 minutes).")
  , ("type", .str "integer")
  , ("minimum", .int 0)
  , ("maximum", .int 600) ]

/-- The four platform LCD config properties in the order
`_getConfigSchemaJson` installs them. -/
def platformConfigProperties : List (String × Json) :=
  [ ("activeBrightnessPercent", activeBrightnessPercentSchema)
  , ("inactiveBrightnessPercent", inactiveBrightnessPercentSchema)
  , ("activeDisplaySeconds", activeDisplaySecondsSchema)
  , ("eventDisplaySeconds", eventDisplaySecondsSchema) ]

/-- The `restart` platform command property built by
`_getCommandSchemaJson` (lines 180-182). -/
def restartSchema : Json := .obj
  [ ("title", .str "Restart")
  , ("type", .str "boolean") ]

/-- The `properties` object assembled by `_getConfigSchemaJson`
(lines 124-159): start from a fresh empty object, `_mergeJson` the
stored firmware config schema into it unless that document is null,
then install each platform LCD property with
`properties[key].to<JsonObject>()` followed by field assignments —
`to<JsonObject>()` clears the member, so each platform key is set to
the full platform object wholesale. -/
def composeConfigProperties (fwConfigSchema : Json) : Json :=
  let base : Json := .obj []
  let props := if fwConfigSchema.isNull then base else _mergeJson base fwConfigSchema
  platformConfigProperties.foldl (fun acc p => acc.setMember p.1 p.2) props

/-- The `properties` object assembled by `_getCommandSchemaJson`
(lines 171-182): firmware command schema merged into a fresh object,
then the `restart` platform property installed wholesale. -/
def composeCommandProperties (fwCommandSchema : Json) : Json :=
  let base : Json := .obj []
  let props := if fwCommandSchema.isNull then base else _mergeJson base fwCommandSchema
  props.setMember "restart" restartSchema

/-- `_getConfigSchemaJson` (lines 115-160): the full `configSchema`
object of the adoption payload.  `JSON_SCHEMA_VERSION` and
`FW_SHORT_NAME` are compile-time constants of the MQTT collaborator and
the hosted firmware, taken as parameters here. -/
def _getConfigSchemaJson (schemaVersion fwShortName : String) (fwConfigSchema : Json) : Json :=
  .obj
    [ ("$schema", .str schemaVersion)
    , ("title", .str fwShortName)
    , ("type", .str "object")
    , ("properties", composeConfigProperties fwConfigSchema) ]

/-- `_getCommandSchemaJson` (lines 162-183): the full `commandSchema`
object of the adoption payload. -/
def _getCommandSchemaJson (schemaVersion fwShortName : String) (fwCommandSchema : Json) : Json :=
  .obj
    [ ("$schema", .str schemaVersion)
    , ("title", .str fwShortName)
    , ("type", .str "object")
    , ("properties", composeCommandProperties fwCommandSchema) ]

/-- `OXRS_Black::setConfigSchema` (lines 366-370): clear the stored
firmware document (making it null) and `_mergeJson` the caller's JSON
into it.  The previous fragment takes no part in the result. -/
def setConfigSchema (_fwConfigSchema json : Json) : Json :=
  _mergeJson .null json

/-- `OXRS_Black::setCommandSchema` (lines 372-376): identical to
`setConfigSchema` on the command document. -/
def setCommandSchema (_fwCommandSchema json : Json) : Json :=
  _mergeJson .null json

mutual

/-- Modelled from the claim and spec wording, for comparison with the
code: merging one platform value over one firmware value, recursing
field-wise when both sides are JSON objects and overwriting with the
platform value otherwise. -/
def specMergeValue (fwVal platformVal : Json) : Json :=
  match fwVal, platformVal with
  | .obj ffields, .obj pfields => specMergeFields (.obj ffields) pfields
  | _, _ => platformVal

/-- Modelled from the claim and spec wording: fold the platform pairs
over an accumulator holding the firmware side — if the key is absent it
is inserted, otherwise merged by `specMergeValue`. -/
def specMergeFields (acc : Json) : List (String × Json) → Json
  | [] => acc
  | (k, v) :: rest =>
    if acc.containsKey k then
      specMergeFields (acc.setMember k (specMergeValue (acc.getMember k) v)) rest
    else
      specMergeFields (acc.setMember k v) rest

end

/-- Modelled from the claim wording of C1: the recursive deep-merge of
the firmware fragment into the platform config properties with
platform-side precedence — each firmware (key, value) installed first,
then each platform LCD property inserted, recursed or overwritten. -/
def specComposedConfigProperties (fwConfigSchema : Json) : Json :=
  specMergeFields fwConfigSchema platformConfigProperties

/-- The LCD settings held by the `OXRS_LCD` collaborator that
`_mqttConfig` writes through its four setters. -/
structure ScreenState where
  brightnessOn : Int
  brightnessDim : Int
  onTimeDisplay : Int
  onTimeEvent : Int

/-- ArduinoJson `variant.as<int>()` (`asIntegral` then `convertNumber`):
booleans convert to 0/1, stored integers are range-checked against the
32-bit destination and out-of-range values yield 0.  ArduinoJson parses
numeric strings here; no facade code path or claim feeds a string to an
integer setting, and strings are modelled as 0 like the other
non-numeric kinds. -/
def asInt (j : Json) : Int :=
  match j with
  | .int n => if -(2 ^ 31) ≤ n ∧ n < 2 ^ 31 then n else 0
  | .bool b => if b then 1 else 0
  | _ => 0

/-- ArduinoJson `variant.as<uint8_t>()`: range-checked conversion, any
value outside 0-255 yields 0 (`convertNumber` returns 0 when
`canConvertNumber` fails); booleans convert to 0/1; non-numeric kinds
yield 0. -/
def asUInt8 (j : Json) : Nat :=
  match j with
  | .int n => if 0 ≤ n ∧ n ≤ 255 then n.toNat else 0
  | .bool b => if b then 1 else 0
  | _ => 0

/-- ArduinoJson `variant.as<const char *>()`: the stored string, or a
null pointer for any other kind.  The facade only reads `type` and
`event` as strings; a non-string value would hand a null pointer to
`strcmp`/`sprintf` (undefined behaviour in the C++), modelled as the
empty string. -/
def asString (j : Json) : String :=
  match j with
  | .str s => s
  | _ => ""

/-- The observable actions of the config dispatch path `_mqttConfig`
(lines 248-273): the four LCD setter calls and the firmware config
callback invocation with its payload. -/
inductive ConfigAction where
  | setBrightnessOn (v : Int)
  | setBrightnessDim (v : Int)
  | setOnTimeDisplay (v : Int)
  | setOnTimeEvent (v : Int)
  | fwConfigCallback (payload : Json)

/-- Discriminates the firmware-callback action from the platform setter
actions. -/
def ConfigAction.isFwCallback : ConfigAction → Bool
  | .fwConfigCallback _ => true
  | _ => false

/-- `_mqttConfig` (lines 248-273): apply each platform-recognised LCD
key when present, then invoke the firmware config callback (when one
was registered at `begin`) with the same JSON.  Returns the updated
screen state together with the ordered trace of actions. -/
def _mqttConfig (hasConfigCallback : Bool) (screen : ScreenState) (json : Json) :
    ScreenState × List ConfigAction :=
  let step1 :=
    if json.containsKey "activeBrightnessPercent" then
      ({ screen with brightnessOn := asInt (json.getMember "activeBrightnessPercent") },
       [ConfigAction.setBrightnessOn (asInt (json.getMember "activeBrightnessPercent"))])
    else (screen, [])
  let step2 :=
    if json.containsKey "inactiveBrightnessPercent" then
      ({ step1.1 with brightnessDim := asInt (json.getMember "inactiveBrightnessPercent") },
       step1.2 ++ [ConfigAction.setBrightnessDim (asInt (json.getMember "inactiveBrightnessPercent"))])
    else step1
  let step3 :=
    if json.containsKey "activeDisplaySeconds" then
      ({ step2.1 with onTimeDisplay := asInt (json.getMember "activeDisplaySeconds") },
       step2.2 ++ [ConfigAction.setOnTimeDisplay (asInt (json.getMember "activeDisplaySeconds"))])
    else step2
  let step4 :=
    if json.containsKey "eventDisplaySeconds" then
      ({ step3.1 with onTimeEvent := asInt (json.getMember "eventDisplaySeconds") },
       step3.2 ++ [ConfigAction.setOnTimeEvent (asInt (json.getMember "eventDisplaySeconds"))])
    else step3
  (step4.1, step4.2 ++ (if hasConfigCallback then [ConfigAction.fwConfigCallback json] else []))

/-- The outcome of the command dispatch path: a device restart
(`ESP.restart()` does not return, so nothing can follow it), the
firmware command callback invoked with its payload, or nothing. -/
inductive CommandOutcome where
  | restartDevice
  | fwCommandCallback (payload : Json)
  | noAction

/-- `_mqttCommand` (lines 275-285): `json.containsKey("restart") &&
json["restart"].as<bool>()` triggers `ESP.restart()`, which never
returns; otherwise the firmware command callback (when registered) gets
the full payload. -/
def _mqttCommand (hasCommandCallback : Bool) (json : Json) : CommandOutcome :=
  if json.containsKey "restart" && (json.getMember "restart").truthy then
    .restartDevice
  else if hasCommandCallback then
    .fwCommandCallback json
  else
    .noAction

/-- `sprintf("[%3d]", v)` padding: the value is right-aligned in a field
of width 3, filled with spaces (the value is a `uint8_t`, so at most
three digits). -/
def fmt3d (v : Nat) : String :=
  if v < 10 then "  " ++ toString v
  else if v < 100 then " " ++ toString v
  else toString v

/-- Modelled from the claim wording of C7, for comparison with the
code: the index zero-padded to width 3. -/
def fmt3dZeroPad (v : Nat) : String :=
  if v < 10 then "00" ++ toString v
  else if v < 100 then "0" ++ toString v
  else toString v

/-- The LCD event line built by `OXRS_Black::publishStatus`
(lines 396-421): `[%3d]` from `index` as a `uint8_t`, then the `type`
and/or `event` strings, collapsed to one token when `strcmp` finds them
byte-equal. -/
def renderEvent (json : Json) : String :=
  let ev := "[" ++ fmt3d (asUInt8 (json.getMember "index")) ++ "]"
  if json.containsKey "type" && json.containsKey "event" then
    if asString (json.getMember "type") == asString (json.getMember "event") then
      ev ++ " " ++ asString (json.getMember "type")
    else
      ev ++ " " ++ asString (json.getMember "type") ++ " " ++ asString (json.getMember "event")
  else if json.containsKey "type" then
    ev ++ " " ++ asString (json.getMember "type")
  else if json.containsKey "event" then
    ev ++ " " ++ asString (json.getMember "event")
  else
    ev

/-- What one `OXRS_Black::publishStatus` call did: its boolean return,
the LCD event line shown (if any), whether `_mqtt.publishStatus` was
reached, and whether the MQTT transmit indicator was pulsed. -/
structure PublishOutcome where
  result : Bool
  lcdEvent : Option String
  publishAttempted : Bool
  txLedPulsed : Bool

namespace OXRS_Black

/-- `OXRS_Black::publishStatus` (lines 393-431): render the LCD event
when the payload has an `index`, return false before publishing when
the Ethernet link is down, otherwise publish and pulse the transmit
indicator on success.  `linkUp` is `Ethernet.linkStatus() == LinkON`
and `mqttPublishResult` is what `_mqtt.publishStatus` would return. -/
def publishStatus (linkUp mqttPublishResult : Bool) (json : Json) : PublishOutcome :=
  let lcd := if json.containsKey "index" then some (renderEvent json) else none
  if !linkUp then
    { result := false, lcdEvent := lcd, publishAttempted := false, txLedPulsed := false }
  else
    { result := mqttPublishResult, lcdEvent := lcd, publishAttempted := true,
      txLedPulsed := mqttPublishResult }

end OXRS_Black

/-- `Ethernet.linkStatus()` as reported by the Ethernet collaborator. -/
inductive LinkStatus where
  | Unknown
  | LinkON
  | LinkOFF
deriving DecidableEq

/-- `OXRS_Black::_isNetworkConnected` (lines 545-548):
`Ethernet.linkStatus() == LinkON`. -/
def _isNetworkConnected (linkStatus : LinkStatus) : Bool :=
  linkStatus = LinkStatus.LinkON

/-- The collaborator pumps a single `OXRS_Black::loop` iteration can
invoke. -/
inductive LoopAction where
  | maintainDhcp
  | mqttLoop
  | apiLoop
  | screenLoop
deriving DecidableEq

namespace OXRS_Black

/-- `OXRS_Black::loop` (lines 346-364) as its ordered trace of
collaborator pumps: DHCP maintenance, the MQTT client pump and the REST
API pump only behind `_isNetworkConnected`, the screen pump always. -/
def loop (linkStatus : LinkStatus) : List LoopAction :=
  (if _isNetworkConnected linkStatus then
    [LoopAction.maintainDhcp, LoopAction.mqttLoop, LoopAction.apiLoop]
  else []) ++ [LoopAction.screenLoop]

end OXRS_Black

/-- The MAC derivation of `OXRS_Black::_initialiseNetwork`
(lines 474-481): the chips base WiFi MAC with the sixth byte
incremented by 3 (`mac[5] += 3`, a `byte`, so modulo 256). -/
def ethernetMacFromBase (base : Fin 6 → Nat) : Fin 6 → Nat :=
  fun i => if i = 5 then (base 5 + 3) % 256 else base i

/-- One uppercase hex digit, as `%02X` produces. -/
def hexDigitUpper (n : Nat) : Char :=
  if n < 10 then Char.ofNat (48 + n) else Char.ofNat (55 + n)

/-- One lowercase hex digit, as `%02x` produces. -/
def hexDigitLower (n : Nat) : Char :=
  if n < 10 then Char.ofNat (48 + n) else Char.ofNat (87 + n)

/-- `sprintf("%02X", b)` for a byte: two uppercase hex digits. -/
def byteHexUpper (b : Nat) : String :=
  String.mk [hexDigitUpper (b / 16), hexDigitUpper (b % 16)]

/-- `sprintf("%02x", b)` for a byte: two lowercase hex digits. -/
def byteHexLower (b : Nat) : String :=
  String.mk [hexDigitLower (b / 16), hexDigitLower (b % 16)]

/-- The `%02X:%02X:%02X:%02X:%02X:%02X` MAC display of
`_initialiseNetwork` (lines 484-485) and `_getNetworkJson`. -/
def macDisplay (mac : Fin 6 → Nat) : String :=
  byteHexUpper (mac 0) ++ ":" ++ byteHexUpper (mac 1) ++ ":" ++ byteHexUpper (mac 2) ++ ":"
    ++ byteHexUpper (mac 3) ++ ":" ++ byteHexUpper (mac 4) ++ ":" ++ byteHexUpper (mac 5)

/-- The default MQTT client id installed by `_initialiseMqtt`
(lines 514-517): `sprintf("%02x%02x%02x", mac[3], mac[4], mac[5])`,
the last three bytes of the Ethernet MAC as lowercase hex. -/
def defaultClientId (mac : Fin 6 → Nat) : String :=
  byteHexLower (mac 3) ++ byteHexLower (mac 4) ++ byteHexLower (mac 5)

/-- The base MAC `AA:BB:CC:DD:EE:F0` of the claim C8 example. -/
def exampleBaseMac : Fin 6 → Nat :=
  fun i => [0xAA, 0xBB, 0xCC, 0xDD, 0xEE, 0xF0].getD i.val 0

/-- The status payload of the claim C7 example:
`{"index": 12, "type": "button", "event": "press"}`. -/
def statusExample : Json :=
  .obj [("index", .int 12), ("type", .str "button"), ("event", .str "press")]


/-! ## Lemmas on the JSON object operations -/

namespace Json

theorem find?_setField_self (l : List (String × Json)) (k : String) (v : Json) :
    (setField l k v).find? (fun p => p.1 == k) = some (k, v) := by
  induction l with
  | nil => simp [setField]
  | cons hd tl ih =>
    obtain ⟨k', v'⟩ := hd
    by_cases h : k' = k
    · subst h
      simp [setField]
    · simp only [setField, beq_iff_eq, if_neg h]
      rw [List.find?_cons_of_neg]
      · exact ih
      · simp [h]

theorem find?_setField_ne (l : List (String × Json)) (k k' : String) (v : Json)
    (h : k ≠ k') :
    (setField l k v).find? (fun p => p.1 == k') = l.find? (fun p => p.1 == k') := by
  induction l with
  | nil => simp [setField, h]
  | cons hd tl ih =>
    obtain ⟨a, b⟩ := hd
    by_cases ha : a = k
    · subst ha
      simp only [setField, beq_self_eq_true, if_pos]
      rw [List.find?_cons_of_neg, List.find?_cons_of_neg]
      · simp [h]
      · simp [h]
    · simp only [setField, beq_iff_eq, if_neg ha]
      by_cases hk' : a = k'
      · subst hk'
        rw [List.find?_cons_of_pos, List.find?_cons_of_pos] <;> simp
      · rw [List.find?_cons_of_neg, List.find?_cons_of_neg]
        · exact ih
        · simp [hk']
        · simp [hk']

theorem getMember_setMember_self (j : Json) (k : String) (v : Json)
    (h : j.isObj = true ∨ j = .null) :
    (j.setMember k v).getMember k = v := by
  rcases h with h | h
  · cases j with
    | obj l => simp [setMember, getMember, find?_setField_self]
    | _ => simp [isObj] at h
  · subst h
    simp [setMember, getMember]

theorem getMember_setMember_ne (j : Json) (k k' : String) (v : Json) (h : k ≠ k') :
    (j.setMember k v).getMember k' = j.getMember k' := by
  cases j with
  | obj l => simp [setMember, getMember, find?_setField_ne l k k' v h]
  | null => simp [setMember, getMember, h]
  | _ => rfl

theorem getMember_of_not_mem_keys (l : List (String × Json)) (k : String)
    (h : k ∉ l.map Prod.fst) :
    (Json.obj l).getMember k = .null := by
  have : l.find? (fun p => p.1 == k) = none := by
    rw [List.find?_eq_none]
    intro p hp
    simp only [beq_iff_eq]
    intro hpk
    exact h (hpk ▸ List.mem_map_of_mem Prod.fst hp)
  simp [getMember, this]

theorem setField_of_not_mem_keys (l : List (String × Json)) (k : String) (v : Json)
    (h : k ∉ l.map Prod.fst) :
    setField l k v = l ++ [(k, v)] := by
  induction l with
  | nil => simp [setField]
  | cons hd tl ih =>
    obtain ⟨a, b⟩ := hd
    simp only [List.map_cons, List.mem_cons, not_or] at h
    have hak : ¬a = k := fun hh => h.1 hh.symm
    simp only [setField, beq_iff_eq, if_neg hak]
    rw [ih h.2]
    simp

theorem setMember_isObj (j : Json) (k : String) (v : Json) (h : j.isObj = true) :
    (j.setMember k v).isObj = true := by
  cases j with
  | obj l => rfl
  | _ => simp [isObj] at h

end Json

theorem mergeJsonPairs_isObj (fields : List (String × Json)) :
    ∀ dst : Json, dst.isObj = true → (_mergeJsonPairs dst fields).isObj = true := by
  induction fields with
  | nil => intro dst h; simpa [_mergeJsonPairs] using h
  | cons hd tl ih =>
    intro dst h
    obtain ⟨k, v⟩ := hd
    rw [_mergeJsonPairs]
    split
    · exact ih _ (Json.setMember_isObj dst k _ h)
    · exact ih _ (Json.setMember_isObj dst k v h)

theorem mergeJsonPairs_of_disjoint (fields : List (String × Json)) :
    ∀ l : List (String × Json),
      (∀ p ∈ fields, p.1 ∉ l.map Prod.fst) →
      (fields.map Prod.fst).Nodup →
      _mergeJsonPairs (.obj l) fields = .obj (l ++ fields) := by
  induction fields with
  | nil => intro l _ _; simp [_mergeJsonPairs]
  | cons hd tl ih =>
    intro l hdisj hnodup
    obtain ⟨k, v⟩ := hd
    have hk : k ∉ l.map Prod.fst := hdisj (k, v) (List.mem_cons_self _ _)
    have hget : (Json.obj l).getMember k = .null := Json.getMember_of_not_mem_keys l k hk
    rw [_mergeJsonPairs, hget]
    simp only [Json.truthy, Bool.false_eq_true, if_false]
    have hset : (Json.obj l).setMember k v = .obj (l ++ [(k, v)]) := by
      simp [Json.setMember, Json.setField_of_not_mem_keys l k v hk]
    rw [hset]
    simp only [List.map_cons, List.nodup_cons] at hnodup
    rw [ih (l ++ [(k, v)])]
    · simp
    · intro p hp
      simp only [List.map_append, List.map_cons, List.map_nil, List.mem_append,
        List.mem_singleton, not_or]
      refine ⟨hdisj p (List.mem_cons_of_mem _ hp), ?_⟩
      intro hpk
      exact hnodup.1 (hpk ▸ List.mem_map_of_mem Prod.fst hp)
    · exact hnodup.2

/-- Merging a firmware fragment into a fresh empty object deep-copies
it: `_mergeJson({}, F) = F` for an object with distinct keys. -/
theorem mergeJson_empty_copy (fields : List (String × Json))
    (h : (fields.map Prod.fst).Nodup) :
    _mergeJson (.obj []) (.obj fields) = .obj fields := by
  rw [_mergeJson]
  simpa using mergeJsonPairs_of_disjoint fields [] (by simp) h

/-- Merging into a cleared (null) document deep-copies the source,
except that an empty object leaves the document null. -/
theorem mergeJson_null_copy (j : Json) (h : j.topKeysNodup) (hne : j ≠ .obj []) :
    _mergeJson .null j = j := by
  cases j with
  | obj fields =>
    cases fields with
    | nil => exact absurd rfl hne
    | cons hd tl =>
      obtain ⟨k, v⟩ := hd
      rw [_mergeJson, _mergeJsonPairs]
      simp only [Json.getMember, Json.truthy, Bool.false_eq_true, if_false, Json.setMember]
      simp only [Json.topKeysNodup, List.map_cons, List.nodup_cons] at h
      rw [mergeJsonPairs_of_disjoint tl [(k, v)]]
      · simp
      · intro p hp
        simp only [List.map_cons, List.map_nil, List.mem_singleton]
        intro hpk
        exact h.1 (hpk ▸ List.mem_map_of_mem Prod.fst hp)
      · exact h.2
  | null => rfl
  | bool b => rfl
  | int n => rfl
  | str s => rfl
  | arr elems => rfl

theorem containsKey_of_getMember_ne_null (j : Json) (k : String)
    (h : j.getMember k ≠ .null) : j.containsKey k = true := by
  cases j with
  | obj l =>
    rw [Json.getMember] at h
    cases hf : l.find? (fun p => p.1 == k) with
    | none => rw [hf] at h; exact absurd rfl h
    | some p =>
      have hp1 := List.find?_some hf
      rw [Json.containsKey, List.any_eq_true]
      exact ⟨p, List.mem_of_find?_eq_some hf, by simpa using hp1⟩
  | null => exact absurd rfl h
  | bool b => exact absurd rfl h
  | int n => exact absurd rfl h
  | str s => exact absurd rfl h
  | arr elems => exact absurd rfl h

/-- The properties object before the platform keys are installed is an
object whenever the firmware document is null or an object. -/
theorem composeBase_isObj (fw : Json) (h : fw.isNull = true ∨ fw.isObj = true) :
    (if fw.isNull then (Json.obj []) else _mergeJson (.obj []) fw).isObj = true := by
  rcases h with h | h
  · simp [h, Json.isObj]
  · cases fw with
    | obj fields => simp [Json.isNull, _mergeJson, mergeJsonPairs_isObj fields (.obj []) rfl]
    | _ => simp [Json.isObj] at h

/-- Unfolding of the platform fold in `composeConfigProperties`. -/
theorem composeConfigProperties_eq (fw : Json) :
    composeConfigProperties fw =
      ((((if fw.isNull then (Json.obj []) else _mergeJson (.obj []) fw).setMember
          "activeBrightnessPercent" activeBrightnessPercentSchema).setMember
          "inactiveBrightnessPercent" inactiveBrightnessPercentSchema).setMember
          "activeDisplaySeconds" activeDisplaySecondsSchema).setMember
          "eventDisplaySeconds" eventDisplaySecondsSchema := by
  simp [composeConfigProperties, platformConfigProperties, List.foldl]

/-- Each of the four platform LCD keys of the composed config
properties reads back as exactly the platform property object,
whatever the firmware fragment supplied for it. -/
theorem composeConfig_getMember_platform (fw : Json)
    (h : fw.isNull = true ∨ fw.isObj = true) :
    (composeConfigProperties fw).getMember "activeBrightnessPercent"
        = activeBrightnessPercentSchema
    ∧ (composeConfigProperties fw).getMember "inactiveBrightnessPercent"
        = inactiveBrightnessPercentSchema
    ∧ (composeConfigProperties fw).getMember "activeDisplaySeconds"
        = activeDisplaySecondsSchema
    ∧ (composeConfigProperties fw).getMember "eventDisplaySeconds"
        = eventDisplaySecondsSchema := by
  have hprops := composeBase_isObj fw h
  have h1 := Json.setMember_isObj _ "activeBrightnessPercent" activeBrightnessPercentSchema hprops
  have h2 := Json.setMember_isObj _ "inactiveBrightnessPercent" inactiveBrightnessPercentSchema h1
  have h3 := Json.setMember_isObj _ "activeDisplaySeconds" activeDisplaySecondsSchema h2
  refine ⟨?_, ?_, ?_, ?_⟩ <;> rw [composeConfigProperties_eq]
  · rw [Json.getMember_setMember_ne _ _ _ _ (by decide),
      Json.getMember_setMember_ne _ _ _ _ (by decide),
      Json.getMember_setMember_ne _ _ _ _ (by decide),
      Json.getMember_setMember_self _ _ _ (Or.inl hprops)]
  · rw [Json.getMember_setMember_ne _ _ _ _ (by decide),
      Json.getMember_setMember_ne _ _ _ _ (by decide),
      Json.getMember_setMember_self _ _ _ (Or.inl h1)]
  · rw [Json.getMember_setMember_ne _ _ _ _ (by decide),
      Json.getMember_setMember_self _ _ _ (Or.inl h2)]
  · rw [Json.getMember_setMember_self _ _ _ (Or.inl h3)]

/-- The `restart` key of the composed command properties reads back as
the platform restart object, whatever the firmware fragment supplied. -/
theorem composeCommand_getMember_restart (fw : Json)
    (h : fw.isNull = true ∨ fw.isObj = true) :
    (composeCommandProperties fw).getMember "restart" = restartSchema := by
  have hprops := composeBase_isObj fw h
  rw [composeCommandProperties]
  exact Json.getMember_setMember_self _ _ _ (Or.inl hprops)

/-- Keys outside the four platform LCD keys read back from the composed
config properties exactly as the firmware fragment stores them. -/
theorem composeConfig_getMember_other (fields : List (String × Json))
    (h : (fields.map Prod.fst).Nodup) (k : String)
    (hk : k ∉ platformConfigProperties.map Prod.fst) :
    (composeConfigProperties (.obj fields)).getMember k
      = (Json.obj fields).getMember k := by
  simp only [platformConfigProperties, List.map_cons, List.map_nil, List.mem_cons,
    List.mem_singleton, not_or] at hk
  rw [composeConfigProperties_eq]
  rw [Json.getMember_setMember_ne _ _ _ _ (fun he => hk.2.2.2.1 he.symm)]
  rw [Json.getMember_setMember_ne _ _ _ _ (fun he => hk.2.2.1 he.symm)]
  rw [Json.getMember_setMember_ne _ _ _ _ (fun he => hk.2.1 he.symm)]
  rw [Json.getMember_setMember_ne _ _ _ _ (fun he => hk.1 he.symm)]
  rw [if_neg (by simp [Json.isNull]), mergeJson_empty_copy fields h]

/-- The `properties` member of the composed config schema. -/
theorem getConfigSchemaJson_properties (sv sn : String) (fw : Json) :
    (_getConfigSchemaJson sv sn fw).getMember "properties" = composeConfigProperties fw :=
  rfl

/-- The `properties` member of the composed command schema. -/
theorem getCommandSchemaJson_properties (sv sn : String) (fw : Json) :
    (_getCommandSchemaJson sv sn fw).getMember "properties" = composeCommandProperties fw :=
  rfl

/-- C2: for every adoption output — any schema version and firmware
short name, and any firmware config/command fragment (a still-null
document or a JSON object) — `configSchema.properties` contains the
four LCD keys, each with type "integer" and inclusive bounds 0-100,
0-100, 0-600, 0-600 respectively, and
`commandSchema.properties.restart` has type "boolean". -/
theorem adoption_platform_schema_fixed (sv sn : String) (fwConfig fwCommand : Json)
    (hC : fwConfig.isNull = true ∨ fwConfig.isObj = true)
    (hK : fwCommand.isNull = true ∨ fwCommand.isObj = true) :
    (((_getConfigSchemaJson sv sn fwConfig).getMember "properties").containsKey
        "activeBrightnessPercent" = true
      ∧ ((((_getConfigSchemaJson sv sn fwConfig).getMember "properties").getMember
          "activeBrightnessPercent").getMember "type" = .str "integer"
        ∧ (((_getConfigSchemaJson sv sn fwConfig).getMember "properties").getMember
          "activeBrightnessPercent").getMember "minimum" = .int 0
        ∧ (((_getConfigSchemaJson sv sn fwConfig).getMember "properties").getMember
          "activeBrightnessPercent").getMember "maximum" = .int 100))
    ∧ (((_getConfigSchemaJson sv sn fwConfig).getMember "properties").containsKey
        "inactiveBrightnessPercent" = true
      ∧ ((((_getConfigSchemaJson sv sn fwConfig).getMember "properties").getMember
          "inactiveBrightnessPercent").getMember "type" = .str "integer"
        ∧ (((_getConfigSchemaJson sv sn fwConfig).getMember "properties").getMember
          "inactiveBrightnessPercent").getMember "minimum" = .int 0
        ∧ (((_getConfigSchemaJson sv sn fwConfig).getMember "properties").getMember
          "inactiveBrightnessPercent").getMember "maximum" = .int 100))
    ∧ (((_getConfigSchemaJson sv sn fwConfig).getMember "properties").containsKey
        "activeDisplaySeconds" = true
      ∧ ((((_getConfigSchemaJson sv sn fwConfig).getMember "properties").getMember
          "activeDisplaySeconds").getMember "type" = .str "integer"
        ∧ (((_getConfigSchemaJson sv sn fwConfig).getMember "properties").getMember
          "activeDisplaySeconds").getMember "minimum" = .int 0
        ∧ (((_getConfigSchemaJson sv sn fwConfig).getMember "properties").getMember
          "activeDisplaySeconds").getMember "maximum" = .int 600))
    ∧ (((_getConfigSchemaJson sv sn fwConfig).getMember "properties").containsKey
        "eventDisplaySeconds" = true
      ∧ ((((_getConfigSchemaJson sv sn fwConfig).getMember "properties").getMember
          "eventDisplaySeconds").getMember "type" = .str "integer"
        ∧ (((_getConfigSchemaJson sv sn fwConfig).getMember "properties").getMember
          "eventDisplaySeconds").getMember "minimum" = .int 0
        ∧ (((_getConfigSchemaJson sv sn fwConfig).getMember "properties").getMember
          "eventDisplaySeconds").getMember "maximum" = .int 600))
    ∧ (((_getCommandSchemaJson sv sn fwCommand).getMember "properties").containsKey
        "restart" = true
      ∧ (((_getCommandSchemaJson sv sn fwCommand).getMember "properties").getMember
          "restart").getMember "type" = .str "boolean") := by
  obtain ⟨e1, e2, e3, e4⟩ := composeConfig_getMember_platform fwConfig hC
  have er := composeCommand_getMember_restart fwCommand hK
  rw [getConfigSchemaJson_properties, getCommandSchemaJson_properties]
  refine ⟨⟨?_, ?_, ?_, ?_⟩, ⟨?_, ?_, ?_, ?_⟩, ⟨?_, ?_, ?_, ?_⟩, ⟨?_, ?_, ?_, ?_⟩, ?_, ?_⟩
  · exact containsKey_of_getMember_ne_null _ _ (by rw [e1]; exact fun hh => Json.noConfusion hh)
  · rw [e1]; rfl
  · rw [e1]; rfl
  · rw [e1]; rfl
  · exact containsKey_of_getMember_ne_null _ _ (by rw [e2]; exact fun hh => Json.noConfusion hh)
  · rw [e2]; rfl
  · rw [e2]; rfl
  · rw [e2]; rfl
  · exact containsKey_of_getMember_ne_null _ _ (by rw [e3]; exact fun hh => Json.noConfusion hh)
  · rw [e3]; rfl
  · rw [e3]; rfl
  · rw [e3]; rfl
  · exact containsKey_of_getMember_ne_null _ _ (by rw [e4]; exact fun hh => Json.noConfusion hh)
  · rw [e4]; rfl
  · rw [e4]; rfl
  · rw [e4]; rfl
  · exact containsKey_of_getMember_ne_null _ _ (by rw [er]; exact fun hh => Json.noConfusion hh)
  · rw [er]; rfl

/-- Witness for C2: the scenario-A firmware fragment
`{"foo": {"type": "string"}}` still yields integer bounds 0-100 on
`activeBrightnessPercent` and a boolean `restart`. -/
theorem adoption_platform_schema_fixed_witness :
    (((_getConfigSchemaJson "v" "FW" (.obj [("foo", .obj [("type", .str "string")])])).getMember
        "properties").getMember "activeBrightnessPercent").getMember "type" = .str "integer"
    ∧ (((_getCommandSchemaJson "v" "FW" .null).getMember "properties").getMember
        "restart").getMember "type" = .str "boolean" := by
  have h := adoption_platform_schema_fixed "v" "FW"
    (.obj [("foo", .obj [("type", .str "string")])]) .null (Or.inr rfl) (Or.inl rfl)
  exact ⟨h.1.2.1, h.2.2.2.2.2⟩

/-- The firmware config fragment used to refute the claimed recursive
platform merge: it supplies its own object, holding an `extra` member,
under the platform key `activeBrightnessPercent`. -/
def fwFragmentCounterexample : Json :=
  .obj [("activeBrightnessPercent", .obj [("extra", .int 1)])]

/-- C1 counterexample: at the fragment
`{"activeBrightnessPercent": {"extra": 1}}` the composed
configSchema.properties is not the recursive deep-merge with
platform-side precedence the claim describes — the code sets each
platform key with `to<JsonObject>()`, which clears the member, so the
firmware `extra` member is dropped rather than kept by a field-wise
recursion. -/
theorem composeConfig_not_spec_merge :
    composeConfigProperties fwFragmentCounterexample
      ≠ specComposedConfigProperties fwFragmentCounterexample := by
  intro h
  have h1 : ((composeConfigProperties fwFragmentCounterexample).getMember
      "activeBrightnessPercent").getMember "extra" = Json.null := rfl
  have h2 : ((specComposedConfigProperties fwFragmentCounterexample).getMember
      "activeBrightnessPercent").getMember "extra" = Json.int 1 := rfl
  rw [h, h2] at h1
  exact Json.noConfusion h1

/-- C1 amended: for every firmware config fragment (a JSON object with
distinct keys), the composed adoption configSchema.properties maps each
of the four platform LCD keys to exactly the platform property object —
the platform value replaces any firmware value for that key wholesale,
with no field-wise recursion even when both sides are objects — and
maps every other key to the value the firmware fragment holds for
it. -/
theorem composeConfig_platform_wholesale (sv sn : String)
    (fields : List (String × Json)) (h : (fields.map Prod.fst).Nodup) :
    (∀ p ∈ platformConfigProperties,
      ((_getConfigSchemaJson sv sn (.obj fields)).getMember "properties").getMember p.1
        = p.2)
    ∧ (∀ k, k ∉ platformConfigProperties.map Prod.fst →
      ((_getConfigSchemaJson sv sn (.obj fields)).getMember "properties").getMember k
        = (Json.obj fields).getMember k) := by
  rw [getConfigSchemaJson_properties]
  constructor
  · intro p hp
    obtain ⟨e1, e2, e3, e4⟩ := composeConfig_getMember_platform (.obj fields) (Or.inr rfl)
    simp only [platformConfigProperties, List.mem_cons, List.mem_singleton,
      List.not_mem_nil, or_false] at hp
    rcases hp with hp | hp | hp | hp <;> subst hp
    · exact e1
    · exact e2
    · exact e3
    · exact e4
  · intro k hk
    exact composeConfig_getMember_other fields h k hk

/-- Witness for C1 amended: scenario A, fragment
`{"foo": {"type": "string"}}` — `foo` reads back unchanged from the
composed properties. -/
theorem composeConfig_platform_wholesale_witness :
    ((_getConfigSchemaJson "v" "FW"
        (.obj [("foo", .obj [("type", .str "string")])])).getMember
        "properties").getMember "foo" = .obj [("type", .str "string")] := by
  have h := composeConfig_platform_wholesale "v" "FW"
    [("foo", .obj [("type", .str "string")])] (by decide)
  rw [h.2 "foo" (by decide)]
  rfl

/-- C3 counterexample: `setConfigSchema` with the empty object `{}`
leaves the stored fragment as the cleared null document — the merge
loop has no pairs to copy — so the stored state is not a deep copy of
the caller's subtree in this one case. -/
theorem setConfigSchema_empty_not_copy :
    setConfigSchema (.obj [("a", .int 1)]) (.obj []) = Json.null
    ∧ setConfigSchema (.obj [("a", .int 1)]) (.obj []) ≠ Json.obj [] := by
  refine ⟨rfl, ?_⟩
  intro h
  have h2 : Json.null = Json.obj [] := h
  exact Json.noConfusion h2

/-- C3 amended: each `setConfigSchema` / `setCommandSchema` call
replaces the stored firmware fragment wholesale with a deep copy of
the caller's JSON subtree — except that the empty object is stored as
the cleared null document, which composes identically — and never
accumulates with the previous fragment, so after two successive calls
the composed adoption schema reflects only the second payload merged
with the platform properties. -/
theorem setSchema_replaces (sv sn : String) (prev1 prev2 j1 j2 : Json)
    (h2 : j2.topKeysNodup) :
    setConfigSchema prev1 j2 = setConfigSchema prev2 j2
    ∧ setCommandSchema prev1 j2 = setCommandSchema prev2 j2
    ∧ (j2 ≠ .obj [] → setConfigSchema prev1 j2 = j2)
    ∧ setConfigSchema prev1 (.obj []) = Json.null
    ∧ _getConfigSchemaJson sv sn (setConfigSchema (setConfigSchema prev1 j1) j2)
        = _getConfigSchemaJson sv sn (setConfigSchema prev1 j2)
    ∧ _getCommandSchemaJson sv sn (setCommandSchema (setCommandSchema prev1 j1) j2)
        = _getCommandSchemaJson sv sn (setCommandSchema prev1 j2) := by
  exact ⟨rfl, rfl, fun hne => mergeJson_null_copy j2 h2 hne, rfl, rfl, rfl⟩

/-- Witness for C3 amended: scenario F — after
`setConfigSchema({"first": 1})` then `setConfigSchema({"second": 2})`
the stored fragment is exactly the second payload. -/
theorem setSchema_replaces_witness :
    setConfigSchema (setConfigSchema Json.null (.obj [("first", .int 1)]))
        (.obj [("second", .int 2)])
      = Json.obj [("second", .int 2)] := by
  have h := setSchema_replaces "v" "FW"
    (setConfigSchema Json.null (.obj [("first", .int 1)])) Json.null
    (.obj [("first", .int 1)]) (.obj [("second", .int 2)]) (by decide)
  exact h.2.2.1 (by simp)

/-- C4: on the config dispatch path each platform-recognised LCD key is
applied exactly when present in the payload — an absent key leaves the
current setting unchanged — and the firmware config callback, when one
was registered at begin, is invoked after all platform actions with
the same full JSON payload, platform keys included; with no registered
callback no callback action ever occurs. -/
theorem mqttConfig_platform_then_callback (hasCb : Bool) (screen : ScreenState)
    (json : Json) :
    ((_mqttConfig hasCb screen json).1.brightnessOn
        = (if json.containsKey "activeBrightnessPercent" then
            asInt (json.getMember "activeBrightnessPercent") else screen.brightnessOn))
    ∧ ((_mqttConfig hasCb screen json).1.brightnessDim
        = (if json.containsKey "inactiveBrightnessPercent" then
            asInt (json.getMember "inactiveBrightnessPercent") else screen.brightnessDim))
    ∧ ((_mqttConfig hasCb screen json).1.onTimeDisplay
        = (if json.containsKey "activeDisplaySeconds" then
            asInt (json.getMember "activeDisplaySeconds") else screen.onTimeDisplay))
    ∧ ((_mqttConfig hasCb screen json).1.onTimeEvent
        = (if json.containsKey "eventDisplaySeconds" then
            asInt (json.getMember "eventDisplaySeconds") else screen.onTimeEvent))
    ∧ ((_mqttConfig true screen json).2
        = (_mqttConfig false screen json).2 ++ [ConfigAction.fwConfigCallback json])
    ∧ (((_mqttConfig false screen json).2.all fun a => !a.isFwCallback) = true) := by
  unfold _mqttConfig
  split_ifs <;> simp_all [ConfigAction.isFwCallback]

/-- C5 counterexample: the command payload `{"restart": 1}` does not
hold the value `true` under its `restart` key, yet the dispatcher
restarts the device and the firmware command callback is never invoked
— `as<bool>()` treats any non-zero value as true, refuting the claim
that every message other than `restart: true` reaches the callback. -/
theorem mqttCommand_truthy_counterexample :
    _mqttCommand true (.obj [("restart", .int 1)]) = CommandOutcome.restartDevice
    ∧ (Json.obj [("restart", .int 1)]).getMember "restart" ≠ Json.bool true := by
  refine ⟨rfl, ?_⟩
  intro h
  have h2 : Json.int 1 = Json.bool true := h
  exact Json.noConfusion h2

/-- C5 amended: a command payload containing the key `restart` with a
truthy value — boolean true, a non-zero number, or any string, array
or object, per the ArduinoJson boolean conversion — triggers the full
system reset and the firmware command callback is never invoked for
that message (the reset does not return); for every other command
message the firmware command callback, when registered, is invoked
with the full payload. -/
theorem mqttCommand_dispatch (hasCb : Bool) (json : Json) :
    if (json.containsKey "restart" && (json.getMember "restart").truthy) = true then
      _mqttCommand hasCb json = CommandOutcome.restartDevice
    else
      _mqttCommand hasCb json
        = (if hasCb then CommandOutcome.fwCommandCallback json
           else CommandOutcome.noAction) := by
  unfold _mqttCommand
  split_ifs <;> simp_all

/-- C6: `publishStatus` returns false without reaching the MQTT
publish when the Ethernet link is down and returns the MQTT layer's
result when the link is up; in both cases the LCD event is rendered
exactly when the payload has an `index` field, and the transmit
indicator is pulsed exactly when the MQTT publish succeeds. -/
theorem publishStatus_link_guard (linkUp mqttRes : Bool) (json : Json) :
    ((OXRS_Black.publishStatus false mqttRes json).result = false
      ∧ (OXRS_Black.publishStatus false mqttRes json).publishAttempted = false)
    ∧ ((OXRS_Black.publishStatus true mqttRes json).result = mqttRes
      ∧ (OXRS_Black.publishStatus true mqttRes json).publishAttempted = true)
    ∧ ((OXRS_Black.publishStatus linkUp mqttRes json).lcdEvent
        = (if json.containsKey "index" then some (renderEvent json) else none))
    ∧ ((OXRS_Black.publishStatus linkUp mqttRes json).lcdEvent.isSome
        = json.containsKey "index")
    ∧ ((OXRS_Black.publishStatus linkUp mqttRes json).txLedPulsed
        = (linkUp && mqttRes)) := by
  cases linkUp <;>
    refine ⟨⟨rfl, rfl⟩, ⟨rfl, rfl⟩, rfl, ?_, rfl⟩ <;>
    · unfold OXRS_Black.publishStatus
      cases hic : json.containsKey "index" <;> simp [hic]

/-- C7 counterexample: the rendered event line for
`{"index": 12, "type": "button", "event": "press"}` is
`[ 12] button press` — the sprintf `%3d` field is space-padded, not
zero-padded as the claim words the `NNN` prefix (zero-padding would
print `[012] button press`). -/
theorem renderEvent_not_zero_padded :
    renderEvent statusExample = "[ 12] button press"
    ∧ fmt3dZeroPad 12 = "012"
    ∧ renderEvent statusExample ≠ "[" ++ fmt3dZeroPad 12 ++ "] button press" := by
  refine ⟨rfl, rfl, ?_⟩
  intro h
  have h2 : "[ 12] button press" = "[012] button press" := h
  exact absurd h2 (by decide)

/-- C7 amended: for every publishStatus payload with an index field,
the rendered LCD event line has the form `[NNN]`, `[NNN] <type>`,
`[NNN] <event>`, or `[NNN] <type> <event>` collapsed to `[NNN] <type>`
when type and event are byte-equal, where NNN is the numeric index
right-aligned in a width-3 field padded with spaces (sprintf `%3d`);
index 12 with type `button` and event `press` renders
`[ 12] button press`. -/
theorem renderEvent_shapes (v : Nat) (t e : String) (hv : v ≤ 255) :
    renderEvent (.obj [("index", .int (v : Int)), ("type", .str t), ("event", .str e)])
      = (if t = e then "[" ++ fmt3d v ++ "]" ++ " " ++ t
         else "[" ++ fmt3d v ++ "]" ++ " " ++ t ++ " " ++ e)
    ∧ renderEvent (.obj [("index", .int (v : Int)), ("type", .str t)])
        = "[" ++ fmt3d v ++ "]" ++ " " ++ t
    ∧ renderEvent (.obj [("index", .int (v : Int)), ("event", .str e)])
        = "[" ++ fmt3d v ++ "]" ++ " " ++ e
    ∧ renderEvent (.obj [("index", .int (v : Int))]) = "[" ++ fmt3d v ++ "]"
    ∧ renderEvent statusExample = "[ 12] button press" := by
  have hu : asUInt8 (Json.int (v : Int)) = v := by
    simp only [asUInt8]
    rw [if_pos ⟨Int.ofNat_nonneg v, by exact_mod_cast hv⟩]
    omega
  refine ⟨?_, ?_, ?_, ?_, rfl⟩
  · show (if (t == e) = true then
        "[" ++ fmt3d (asUInt8 (Json.int (v : Int))) ++ "]" ++ " " ++ t
      else "[" ++ fmt3d (asUInt8 (Json.int (v : Int))) ++ "]" ++ " " ++ t ++ " " ++ e) = _
    rw [hu]
    by_cases h : t = e
    · subst h
      simp
    · rw [if_neg (by simpa using h), if_neg h]
  · show ("[" ++ fmt3d (asUInt8 (Json.int (v : Int))) ++ "]" ++ " " ++ t) = _
    rw [hu]
  · show ("[" ++ fmt3d (asUInt8 (Json.int (v : Int))) ++ "]" ++ " " ++ e) = _
    rw [hu]
  · show ("[" ++ fmt3d (asUInt8 (Json.int (v : Int))) ++ "]") = _
    rw [hu]

/-- Witness for C7 amended: scenario C, index 7 with type and event
both `button` collapses to one token. -/
theorem renderEvent_shapes_witness :
    renderEvent (.obj [("index", .int 7), ("type", .str "button"),
        ("event", .str "button")])
      = "[  7] button" := by
  have h := (renderEvent_shapes 7 "button" "button" (by decide)).1
  show renderEvent (.obj [("index", .int ((7 : Nat) : Int)), ("type", .str "button"),
    ("event", .str "button")]) = "[  7] button"
  rw [h]
  rfl

/-- C8: the Ethernet MAC equals the base WiFi MAC with the sixth byte
incremented by 3 (byte arithmetic, modulo 256), the other five bytes
unchanged, and the default MQTT client id is the last three Ethernet
MAC bytes as lowercase hex; base MAC AA:BB:CC:DD:EE:F0 reports
Ethernet MAC AA:BB:CC:DD:EE:F3 and client id ddeef3. -/
theorem ethernetMac_clientId (base : Fin 6 → Nat) :
    ethernetMacFromBase base 5 = (base 5 + 3) % 256
    ∧ (∀ i : Fin 5, ethernetMacFromBase base i.castSucc = base i.castSucc)
    ∧ defaultClientId (ethernetMacFromBase base)
        = byteHexLower (base 3) ++ byteHexLower (base 4)
          ++ byteHexLower ((base 5 + 3) % 256)
    ∧ macDisplay (ethernetMacFromBase exampleBaseMac) = "AA:BB:CC:DD:EE:F3"
    ∧ defaultClientId (ethernetMacFromBase exampleBaseMac) = "ddeef3" := by
  refine ⟨rfl, ?_, rfl, ?_, ?_⟩
  · intro i
    fin_cases i <;> rfl
  · rfl
  · rfl

/-- C9: every `loop()` invocation pumps the display, whatever the link
state, and runs the DHCP maintenance, the MQTT client pump and the
REST API pump exactly when the Ethernet link is up
(`linkStatus() == LinkON`). -/
theorem loop_pumps (ls : LinkStatus) :
    (OXRS_Black.loop ls).contains LoopAction.screenLoop = true
    ∧ (OXRS_Black.loop ls).contains LoopAction.maintainDhcp = _isNetworkConnected ls
    ∧ (OXRS_Black.loop ls).contains LoopAction.mqttLoop = _isNetworkConnected ls
    ∧ (OXRS_Black.loop ls).contains LoopAction.apiLoop = _isNetworkConnected ls
    ∧ _isNetworkConnected ls = decide (ls = LinkStatus.LinkON) := by
  cases ls <;> exact ⟨rfl, rfl, rfl, rfl, rfl⟩

/-- C10 counterexample: index 300 renders as `[  0]`, not as
300 mod 256 = 44 — the ArduinoJson `as<uint8_t>()` conversion is
range-checked and yields 0 for out-of-range values instead of
truncating. -/
theorem renderEvent_mod256_counterexample :
    renderEvent (.obj [("index", .int 300)]) = "[  0]"
    ∧ ((300 : Int) % 256).toNat = 44
    ∧ renderEvent (.obj [("index", .int 300)])
        ≠ "[" ++ fmt3d ((300 : Int) % 256).toNat ++ "]" := by
  refine ⟨rfl, rfl, ?_⟩
  intro h
  have h2 : "[  0]" = "[ 44]" := h
  exact absurd h2 (by decide)

/-- C10 amended: `publishStatus` reads the index through the
range-checked ArduinoJson `as<uint8_t>()` conversion, so every index
value outside 0-255 renders as 0 in the `[NNN]` prefix — neither the
value itself nor the value modulo 256. -/
theorem renderEvent_index_out_of_range (v : Int) (h : v < 0 ∨ 255 < v) :
    renderEvent (.obj [("index", .int v)]) = "[  0]" := by
  have ha : asUInt8 (Json.int v) = 0 := by
    simp only [asUInt8]
    rw [if_neg (by omega)]
  show ("[" ++ fmt3d (asUInt8 (Json.int v)) ++ "]") = _
  rw [ha]
  rfl

/-- Witness for C10 amended: index 300 renders as `[  0]`. -/
theorem renderEvent_index_out_of_range_witness :
    renderEvent (.obj [("index", .int (-1))]) = "[  0]" :=
  renderEvent_index_out_of_range (-1) (Or.inl (by decide))
